import Mathlib

/-!
Verification of the `walrus-python` client (`src/walrus/client.py`) against its
natural-language specification.

The Python code is shallowly embedded: every pure computation of the client
(query-parameter construction, URL building, error normalization, the message
strings built by `WalrusAPIError.__init__` and `__str__`) becomes a computable
Lean function translated line by line from the source.  The HTTP transport is
external to the repository, so an exchange is modelled by its observable
outcome: either no response was received (`Transport.noResponse`, the
`requests` exception carries `response = None` and a description string), or a
response with a status code, an optional reason phrase, headers, and a body.
A body is modelled by what `response.content` / `response.json()` observe of
it: the raw bytes together with either the successfully parsed JSON value or
the fact that parsing raises `JSONDecodeError`.  JSON numbers are modelled as
integers, which covers every value the claims touch.
-/

set_option autoImplicit false

namespace Walrus

/-- JSON values as produced by `json.loads` (numbers restricted to integers;
objects keep key order, duplicate keys resolved last-wins as in `json.loads`). -/
inductive Json where
  | null : Json
  | bool : Bool → Json
  | num : Int → Json
  | str : String → Json
  | arr : List Json → Json
  | obj : List (String × Json) → Json
  deriving Repr

/-- Python `dict.get` / `in` on an object decoded by `json.loads`: the binding
of the last occurrence of the key wins (later duplicate keys overwrite). -/
def pyDictGet {α : Type} (kvs : List (String × α)) (k : String) : Option α :=
  kvs.foldl (fun acc p => if p.1 = k then some p.2 else acc) none

/-- Python truthiness of a decoded JSON value (`if details:` in the source). -/
def pyTruthy : Json → Bool
  | .null => false
  | .bool b => b
  | .num n => n != 0
  | .str s => s ≠ ""
  | .arr xs => !xs.isEmpty
  | .obj kvs => !kvs.isEmpty

/-- Python `repr` of a string (single quotes; escaping of exotic characters is
not needed by any claim). -/
def pyReprString (s : String) : String := "'" ++ s ++ "'"

mutual

/-- Python `repr` of a decoded JSON value, used when it is nested inside a
list or dict being formatted. -/
def pyRepr : Json → String
  | .null => "None"
  | .bool b => if b then "True" else "False"
  | .num n => toString n
  | .str s => pyReprString s
  | .arr xs => "[" ++ pyReprList xs ++ "]"
  | .obj kvs => "\x7b" ++ pyReprObj kvs ++ "\x7d"

/-- Comma-separated `repr`s of list elements. -/
def pyReprList : List Json → String
  | [] => ""
  | [x] => pyRepr x
  | x :: xs => pyRepr x ++ ", " ++ pyReprList xs

/-- Comma-separated `key: value` `repr`s of dict entries. -/
def pyReprObj : List (String × Json) → String
  | [] => ""
  | [(k, v)] => pyReprString k ++ ": " ++ pyRepr v
  | (k, v) :: rest => pyReprString k ++ ": " ++ pyRepr v ++ ", " ++ pyReprObj rest

end

/-- Python `str` of a decoded JSON value, as f-string interpolation applies it:
a string interpolates as itself, every other value as its `repr`. -/
def pyStr : Json → String
  | .str s => s
  | v => pyRepr v

/-- The `" (Details: {details})" if details else ""` suffix of both message
renderings in `WalrusAPIError` (client.py lines 17-19 and 22-25). -/
def detailsSuffix (details : Json) : String :=
  if pyTruthy details then " (Details: " ++ pyStr details ++ ")" else ""

/-- The `error_msg` string built by `WalrusAPIError.__init__` (line 17):
`f"{context}: HTTP {code} - {status}: {message}"` plus the details suffix;
it is passed to `Exception.__init__` and carried as `args[0]`. -/
def errorMsg (context : String) (code status message details : Json) : String :=
  context ++ ": HTTP " ++ pyStr code ++ " - " ++ pyStr status ++ ": " ++ pyStr message
    ++ detailsSuffix details

/-- `WalrusAPIError` (client.py lines 7-25).  The Python object is dynamically
typed: whatever values the error body supplied are stored unchanged, so the
fields are JSON values.  `args0` is the message the constructor passed to
`Exception.__init__`. -/
structure WalrusAPIError where
  code : Json
  status : Json
  message : Json
  details : Json
  args0 : String
  deriving Repr

/-- `WalrusAPIError.__init__` (client.py lines 10-20). -/
def mkWalrusAPIError (code status message details : Json) (context : String) :
    WalrusAPIError :=
  ⟨code, status, message, details, errorMsg context code status message details⟩

/-- `WalrusAPIError.__str__` (client.py lines 22-25): the summary without the
context prefix. -/
def WalrusAPIError.toStr (e : WalrusAPIError) : String :=
  "HTTP " ++ pyStr e.code ++ " - " ++ pyStr e.status ++ ": " ++ pyStr e.message
    ++ detailsSuffix e.details

/-- The observable behaviour of a response body: the raw bytes seen by
`response.content`, and whether `response.json()` parses them (`parsed v`)
or raises `JSONDecodeError` (`unparsable`). -/
inductive Body where
  | parsed (raw : List Nat) (v : Json) : Body
  | unparsable (raw : List Nat) : Body
  deriving Repr

/-- The bytes `response.content` yields. -/
def Body.content : Body → List Nat
  | .parsed raw _ => raw
  | .unparsable raw => raw

/-- An HTTP response as the client observes it through `requests`:
`status_code`, `reason` (`None` possible), `headers`, and the body. -/
structure HttpResponse where
  status_code : Int
  reason : Option String
  headers : List (String × String)
  body : Body
  deriving Repr

/-- A `requests.RequestException` as `_handle_request_error` observes it:
its `response` attribute (possibly `None`) and `str(exception)`. -/
structure RequestExc where
  response : Option HttpResponse
  descr : String

/-- What `_handle_request_error` raises: either the `WalrusAPIError` it
constructs, or — when `error_json["error"]` is not a dict — the
`AttributeError` that `err.get(...)` raises (line 311), which no handler
catches. -/
inductive Raised where
  | api (e : WalrusAPIError) : Raised
  | attributeError : Raised
  deriving Repr

/-- `exception.response.reason or "UNKNOWN"` (lines 321, 329): Python `or`
replaces a falsy reason (`None` or the empty string) by `"UNKNOWN"`. -/
def reasonOrUnknown : Option String → String
  | none => "UNKNOWN"
  | some s => if s = "" then "UNKNOWN" else s

/-- The fallback `WalrusAPIError` built from the HTTP response line alone
(lines 319-325 and 327-333; the two textual paths build identical values). -/
def fallbackError (r : HttpResponse) (context : String) : WalrusAPIError :=
  mkWalrusAPIError (.num r.status_code) (.str (reasonOrUnknown r.reason))
    (.str ("HTTP " ++ toString r.status_code ++ ": " ++ reasonOrUnknown r.reason))
    (.arr []) context

/-- The structured `WalrusAPIError` extracted from an `error` object
(lines 310-317): each field defaults when the key is missing. -/
def structuredError (sc : Int) (err : List (String × Json)) (context : String) :
    WalrusAPIError :=
  mkWalrusAPIError
    ((pyDictGet err "code").getD (.num sc))
    ((pyDictGet err "status").getD (.str "UNKNOWN"))
    ((pyDictGet err "message").getD (.str ""))
    ((pyDictGet err "details").getD (.arr []))
    context

/-- `WalrusClient._handle_request_error` (client.py lines 303-338), translated
branch by branch.  `hasattr(exception, "response")` always holds on a
`RequestException`, so the outer test is `exception.response is not None`.
With a response: an empty body skips the parse and falls back; an unparsable
body raises `JSONDecodeError`, caught by the `except` clause, same fallback;
a parsed dict with an `"error"` key whose value is a dict yields the
structured error; a parsed dict whose `"error"` value is not a dict hits
`err.get` on a non-dict, an uncaught `AttributeError`; anything else falls
back.  Without a response: the fixed 500 `REQUEST_FAILED` error. -/
def handle_request_error (exc : RequestExc) (context : String) : Raised :=
  match exc.response with
  | none =>
      .api (mkWalrusAPIError (.num 500) (.str "REQUEST_FAILED") (.str exc.descr)
        (.arr []) context)
  | some r =>
      match r.body with
      | .unparsable _ => .api (fallbackError r context)
      | .parsed raw v =>
          if raw = [] then .api (fallbackError r context)
          else
            match v with
            | .obj kvs =>
                match pyDictGet kvs "error" with
                | some (.obj errKvs) => .api (structuredError r.status_code errKvs context)
                | some _ => .attributeError
                | none => .api (fallbackError r context)
            | _ => .api (fallbackError r context)

/-- The observable outcome of one HTTP exchange performed by `requests`:
either no response was received (the raised exception has `response = None`
and `str(exception) = descr`), or a response arrived. -/
inductive Transport where
  | noResponse (descr : String) : Transport
  | response (r : HttpResponse) : Transport

/-- `Response.raise_for_status` raises `HTTPError` exactly for status codes
400-599. -/
def isErrorStatus (sc : Int) : Bool :=
  decide (400 ≤ sc ∧ sc < 600)

/-- Modelled description string of the `JSONDecodeError` that
`response.json()` raises on an unparsable body.  The exact text comes from the
`json` library and no claim depends on it; the raised exception has
`response = None`. -/
def jsonDecodeDescr : String := "Expecting value: line 1 column 1 (char 0)"

/-- The result a public client operation produces: the returned value, the
`WalrusAPIError` raised by `_handle_request_error`, the uncaught
`AttributeError` it can leak, or one of the two precondition errors raised
before any network call. -/
inductive OpResult (α : Type) where
  | ok (a : α) : OpResult α
  | apiError (e : WalrusAPIError) : OpResult α
  | attributeError : OpResult α
  | fileNotFoundError (msg : String) : OpResult α
  | valueError (msg : String) : OpResult α

/-- Lift what `_handle_request_error` raises into an operation result. -/
def raisedToResult {α : Type} : Raised → OpResult α
  | .api e => .apiError e
  | .attributeError => .attributeError

/-- `WalrusClient` configuration fields (client.py lines 46-48). -/
structure WalrusClient where
  publisher_base_url : String
  aggregator_base_url : String
  timeout : Int
  deriving Repr

/-- Python `url.rstrip("/")` on the character list: remove every trailing
slash. -/
def rstripSlashList (l : List Char) : List Char :=
  (l.reverse.dropWhile (fun c => c = '/')).reverse

/-- Python `url.rstrip("/")`. -/
def pyRstripSlash (s : String) : String :=
  ⟨rstripSlashList s.data⟩

/-- `WalrusClient.__init__` (client.py lines 35-48); `timeout` defaults to 30
at call sites that omit it.  A pure total function: no network or filesystem
access, no failure. -/
def WalrusClient.init (publisher_base_url aggregator_base_url : String)
    (timeout : Int) : WalrusClient :=
  ⟨pyRstripSlash publisher_base_url, pyRstripSlash aggregator_base_url, timeout⟩

/-- `WalrusClient._build_query_params` (client.py lines 284-301): the dict in
insertion order, as an association list (the four keys are distinct). -/
def build_query_params (encoding_type : Option String) (epochs : Option Int)
    (deletable : Option Bool) (send_object_to : Option String) :
    List (String × String) :=
  (match encoding_type with
   | some e => [("encoding_type", e)]
   | none => []) ++
  (match epochs with
   | some n => [("epochs", toString n)]
   | none => []) ++
  (match deletable with
   | some b => [("deletable", if b then "true" else "false")]
   | none => []) ++
  (match send_object_to with
   | some s => [("send_object_to", s)]
   | none => [])

/-- One HTTP request as the client hands it to `requests`. -/
structure HttpRequest where
  method : String
  url : String
  headers : List (String × String)
  params : List (String × String)
  body : List Nat
  deriving Repr

/-- The `PUT {publisher_base_url}/v1/blobs` request all three upload entry
points issue (client.py lines 74-83 and 150-159). -/
def put_blob_request (c : WalrusClient) (data : List Nat)
    (encoding_type : Option String) (epochs : Option Int)
    (deletable : Option Bool) (send_object_to : Option String) : HttpRequest :=
  { method := "PUT"
    url := c.publisher_base_url ++ "/v1/blobs"
    headers := [("Content-Type", "application/octet-stream")]
    params := build_query_params encoding_type epochs deletable send_object_to
    body := data }

/-- Shared tail of the JSON-returning operations: `raise_for_status`, then
`response.json()`, with every `RequestException` routed through
`_handle_request_error` (an `HTTPError` carries the response; a
`JSONDecodeError` from `response.json()` carries none). -/
def runJsonRequest (t : Transport) (context : String) : OpResult Json :=
  match t with
  | .noResponse d => raisedToResult (handle_request_error ⟨none, d⟩ context)
  | .response r =>
      if isErrorStatus r.status_code then
        raisedToResult (handle_request_error ⟨some r, ""⟩ context)
      else
        match r.body with
        | .parsed _ v => .ok v
        | .unparsable _ =>
            raisedToResult (handle_request_error ⟨none, jsonDecodeDescr⟩ context)

/-- Shared tail of the byte-returning operations: `raise_for_status`, then
`response.content` (or `response.raw`, which yields the same bytes). -/
def runBytesRequest (t : Transport) (context : String) : OpResult (List Nat) :=
  match t with
  | .noResponse d => raisedToResult (handle_request_error ⟨none, d⟩ context)
  | .response r =>
      if isErrorStatus r.status_code then
        raisedToResult (handle_request_error ⟨some r, ""⟩ context)
      else .ok r.body.content

/-- Shared tail of `get_blob_metadata`: `raise_for_status`, then
`dict(response.headers)`. -/
def runHeadRequest (t : Transport) (context : String) :
    OpResult (List (String × String)) :=
  match t with
  | .noResponse d => raisedToResult (handle_request_error ⟨none, d⟩ context)
  | .response r =>
      if isErrorStatus r.status_code then
        raisedToResult (handle_request_error ⟨some r, ""⟩ context)
      else .ok r.headers

/-- `WalrusClient.put_blob` (client.py lines 50-87): the issued requests and
the outcome. -/
def put_blob (c : WalrusClient) (data : List Nat) (encoding_type : Option String)
    (epochs : Option Int) (deletable : Option Bool) (send_object_to : Option String)
    (t : Transport) : List HttpRequest × OpResult Json :=
  ([put_blob_request c data encoding_type epochs deletable send_object_to],
   runJsonRequest t "Error uploading blob")

/-- The filesystem as `put_blob_from_file` observes it: `some bytes` when the
path references an existing regular file with those contents (`os.path.isfile`
then `read()`), `none` otherwise. -/
def FileSystem : Type := String → Option (List Nat)

/-- `WalrusClient.put_blob_from_file` (client.py lines 89-120): raise
`FileNotFoundError` before any network call when the path is not a regular
file, otherwise read the whole file and delegate to `put_blob`. -/
def put_blob_from_file (c : WalrusClient) (fs : FileSystem) (file_path : String)
    (encoding_type : Option String) (epochs : Option Int) (deletable : Option Bool)
    (send_object_to : Option String) (t : Transport) :
    List HttpRequest × OpResult Json :=
  match fs file_path with
  | none => ([], .fileNotFoundError ("File not found: " ++ file_path))
  | some data => put_blob c data encoding_type epochs deletable send_object_to t

/-- A binary stream as `put_blob_from_stream` observes it: whether
`stream.readable()` holds, and the bytes the transport drains from it. -/
structure ByteStream where
  readable : Bool
  data : List Nat

/-- `WalrusClient.put_blob_from_stream` (client.py lines 122-163): raise
`ValueError` before any network call when the stream is not readable,
otherwise issue the same `PUT` with the stream's bytes as body. -/
def put_blob_from_stream (c : WalrusClient) (stream : ByteStream)
    (encoding_type : Option String) (epochs : Option Int) (deletable : Option Bool)
    (send_object_to : Option String) (t : Transport) :
    List HttpRequest × OpResult Json :=
  if stream.readable then
    ([put_blob_request c stream.data encoding_type epochs deletable send_object_to],
     runJsonRequest t "Error uploading blob from stream")
  else ([], .valueError "Provided stream is not readable")

/-- `WalrusClient.get_blob_by_object_id` (client.py lines 165-187). -/
def get_blob_by_object_id (c : WalrusClient) (object_id : String) (t : Transport) :
    List HttpRequest × OpResult (List Nat) :=
  ([⟨"GET", c.aggregator_base_url ++ "/v1/blobs/by-object-id/" ++ object_id,
     [], [], []⟩],
   runBytesRequest t ("Error retrieving blob by object ID: " ++ object_id))

/-- `WalrusClient.get_blob` (client.py lines 189-211). -/
def get_blob (c : WalrusClient) (blob_id : String) (t : Transport) :
    List HttpRequest × OpResult (List Nat) :=
  ([⟨"GET", c.aggregator_base_url ++ "/v1/blobs/" ++ blob_id, [], [], []⟩],
   runBytesRequest t ("Error retrieving blob by blob ID: " ++ blob_id))

/-- `WalrusClient.get_blob_as_stream` (client.py lines 213-234): the returned
`response.raw` stream is modelled by the bytes it yields. -/
def get_blob_as_stream (c : WalrusClient) (blob_id : String) (t : Transport) :
    List HttpRequest × OpResult (List Nat) :=
  ([⟨"GET", c.aggregator_base_url ++ "/v1/blobs/" ++ blob_id, [], [], []⟩],
   runBytesRequest t ("Error retrieving blob as stream by blob ID: " ++ blob_id))

/-- The effect `get_blob_as_file` has on the destination path: either the file
was never opened, or `open(file_path, "wb")` ran (creating or truncating it)
and the response bytes were written. -/
inductive FileEffect where
  | untouched : FileEffect
  | written (bytes : List Nat) : FileEffect
  deriving Repr

/-- `WalrusClient.get_blob_as_file` (client.py lines 236-258): the destination
file is opened only after `raise_for_status` passes; then the body is streamed
to it in 8192-byte chunks (the concatenation of the chunks is the body). -/
def get_blob_as_file (c : WalrusClient) (blob_id : String) (file_path : String)
    (t : Transport) : List HttpRequest × FileEffect × OpResult Unit :=
  let requests := [HttpRequest.mk "GET"
    (c.aggregator_base_url ++ "/v1/blobs/" ++ blob_id) [] [] []]
  let context := "Error retrieving blob as file by blob ID: " ++ blob_id
  match t with
  | .noResponse d =>
      (requests, .untouched, raisedToResult (handle_request_error ⟨none, d⟩ context))
  | .response r =>
      if isErrorStatus r.status_code then
        (requests, .untouched,
         raisedToResult (handle_request_error ⟨some r, ""⟩ context))
      else (requests, .written r.body.content, .ok ())

/-- `WalrusClient.get_blob_metadata` (client.py lines 260-282). -/
def get_blob_metadata (c : WalrusClient) (blob_id : String) (t : Transport) :
    List HttpRequest × OpResult (List (String × String)) :=
  ([⟨"HEAD", c.aggregator_base_url ++ "/v1/blobs/" ++ blob_id, [], [], []⟩],
   runHeadRequest t ("Error retrieving metadata for blob ID: " ++ blob_id))

/-- The body shapes the error-normalization fallback path (client.py lines
319-333) actually handles: an unparsable body (empty or invalid JSON), an
empty parsed body, a parsed non-mapping, or a parsed mapping without an
`"error"` key. -/
def usesFallback : Body → Prop
  | .unparsable _ => True
  | .parsed raw (.obj kvs) => raw = [] ∨ pyDictGet kvs "error" = none
  | .parsed _ _ => True

/-- Modelled from the spec: the spec says each base URL has "any trailing `/`
stripped exactly once"; this function removes one trailing slash when present,
for comparison with the code's `rstrip("/")`. -/
def stripTrailingSlashOnce (s : String) : String :=
  match s.data.reverse with
  | '/' :: rest => ⟨rest.reverse⟩
  | _ => s

/-- A 404 response whose JSON body is a mapping binding `"error"` to a string
(raw bytes abbreviated to a nonempty placeholder). -/
def errorValueString : HttpResponse :=
  ⟨404, some "Not Found", [], .parsed [1] (.obj [("error", .str "boom")])⟩

/-- A 404 response whose JSON body is a mapping binding `"error"` to a
number. -/
def errorValueNumber : HttpResponse :=
  ⟨404, some "Not Found", [], .parsed [1] (.obj [("error", .num 5)])⟩

/-- A 404 response whose JSON body is a mapping binding `"error"` to an
array. -/
def errorValueArray : HttpResponse :=
  ⟨404, some "Not Found", [], .parsed [1] (.obj [("error", .arr [.bool true])])⟩

/-- A 304 Not Modified response with an empty body: `raise_for_status` does
not raise for it, although it is not a 2xx status. -/
def notModifiedResponse : HttpResponse :=
  ⟨304, some "Not Modified", [], .unparsable []⟩

/-! ## Theorems -/

/-- Claim C1: refuted by the code (code bug).  The claim says every public
operation either returns a success value or raises exactly one
`WalrusAPIError` (or a precondition error before any network call) and never
raises any other kind of error; the docstrings promise the same ("Raises:
WalrusAPIError: If the API request fails").  But on a 404 response whose JSON
body is a mapping binding `"error"` to a non-mapping, line 311 calls
`err.get` on a non-dict and the resulting `AttributeError` escapes uncaught:
`get_blob` neither returns nor raises a `WalrusAPIError`. -/
theorem get_blob_attributeError_escapes :
    (get_blob (WalrusClient.init "http://pub" "http://agg" 30) "b1"
        (.response errorValueString)).2 = OpResult.attributeError := rfl

/-- Claim C2 counterexample: on a received 404 response whose non-empty body
parses to the mapping `(error ↦ 5)`, the claim says the fallback path of
4.5(1b) is used; in fact `_handle_request_error` leaks an `AttributeError`
and in particular does not raise the fallback `ServiceError`. -/
theorem error_value_not_mapping_skips_fallback :
    handle_request_error ⟨some errorValueNumber, ""⟩ "ctx" = .attributeError ∧
    handle_request_error ⟨some errorValueNumber, ""⟩ "ctx" ≠
      .api (mkWalrusAPIError (.num 404) (.str "Not Found")
        (.str "HTTP 404: Not Found") (.arr []) "ctx") :=
  ⟨rfl, fun h => Raised.noConfusion h⟩

/-- Claim C2 (amended): for every failed exchange with a response whose
non-empty body parses to a mapping with an `"error"` key, if the `"error"`
value is itself a mapping the `ServiceError` is built from it with `code`
defaulting to the HTTP status code, `status` to `"UNKNOWN"`, `message` to the
empty string and `details` to the empty sequence; if the `"error"` value is
not a mapping, an `AttributeError` escapes instead of the fallback path. -/
theorem handle_request_error_error_key
    (sc : Int) (reason : Option String) (hdrs : List (String × String))
    (raw : List Nat) (d ctx : String) (kvs : List (String × Json))
    (hraw : raw ≠ []) :
    (∀ errKvs, pyDictGet kvs "error" = some (.obj errKvs) →
      handle_request_error ⟨some ⟨sc, reason, hdrs, .parsed raw (.obj kvs)⟩, d⟩ ctx =
        .api (mkWalrusAPIError
          ((pyDictGet errKvs "code").getD (.num sc))
          ((pyDictGet errKvs "status").getD (.str "UNKNOWN"))
          ((pyDictGet errKvs "message").getD (.str ""))
          ((pyDictGet errKvs "details").getD (.arr []))
          ctx)) ∧
    (∀ v, pyDictGet kvs "error" = some v → (∀ errKvs, v ≠ .obj errKvs) →
      handle_request_error ⟨some ⟨sc, reason, hdrs, .parsed raw (.obj kvs)⟩, d⟩ ctx =
        .attributeError) := by
  constructor
  · intro errKvs hget
    simp [handle_request_error, hraw, hget, structuredError]
  · intro v hget hne
    cases v with
    | obj errKvs => exact absurd rfl (hne errKvs)
    | null => simp [handle_request_error, hraw, hget]
    | bool b => simp [handle_request_error, hraw, hget]
    | num n => simp [handle_request_error, hraw, hget]
    | str s => simp [handle_request_error, hraw, hget]
    | arr xs => simp [handle_request_error, hraw, hget]

/-- Claim C2 witness: the structured-extraction branch evaluated on a concrete
404 response whose error object supplies only `code`. -/
theorem handle_request_error_error_key_witness :
    handle_request_error ⟨some ⟨404, some "Not Found", [],
        .parsed [1] (.obj [("error", .obj [("code", .num 7)])])⟩, ""⟩ "ctx" =
      .api (mkWalrusAPIError (.num 7) (.str "UNKNOWN") (.str "") (.arr []) "ctx") :=
  (handle_request_error_error_key 404 (some "Not Found") [] [1] "" "ctx"
      [("error", .obj [("code", .num 7)])] (by decide)).1 [("code", .num 7)] rfl

/-- Claim C3: every public operation, on a failure where no response was
received at all, raises a `WalrusAPIError` with `code = 500`,
`status = "REQUEST_FAILED"`, `message` = the transport error's description,
empty `details`, and that operation's context string. -/
theorem network_failure_request_failed
    (c : WalrusClient) (d : String) (data : List Nat)
    (et : Option String) (ep : Option Int) (dl : Option Bool) (st : Option String)
    (fs : FileSystem) (path oid bid fpath : String) (stream : ByteStream)
    (hfs : fs path = some data) (hread : stream.readable = true) :
    (put_blob c data et ep dl st (.noResponse d)).2 =
      .apiError (mkWalrusAPIError (.num 500) (.str "REQUEST_FAILED") (.str d)
        (.arr []) "Error uploading blob") ∧
    (put_blob_from_file c fs path et ep dl st (.noResponse d)).2 =
      .apiError (mkWalrusAPIError (.num 500) (.str "REQUEST_FAILED") (.str d)
        (.arr []) "Error uploading blob") ∧
    (put_blob_from_stream c stream et ep dl st (.noResponse d)).2 =
      .apiError (mkWalrusAPIError (.num 500) (.str "REQUEST_FAILED") (.str d)
        (.arr []) "Error uploading blob from stream") ∧
    (get_blob_by_object_id c oid (.noResponse d)).2 =
      .apiError (mkWalrusAPIError (.num 500) (.str "REQUEST_FAILED") (.str d)
        (.arr []) ("Error retrieving blob by object ID: " ++ oid)) ∧
    (get_blob c bid (.noResponse d)).2 =
      .apiError (mkWalrusAPIError (.num 500) (.str "REQUEST_FAILED") (.str d)
        (.arr []) ("Error retrieving blob by blob ID: " ++ bid)) ∧
    (get_blob_as_stream c bid (.noResponse d)).2 =
      .apiError (mkWalrusAPIError (.num 500) (.str "REQUEST_FAILED") (.str d)
        (.arr []) ("Error retrieving blob as stream by blob ID: " ++ bid)) ∧
    (get_blob_as_file c bid fpath (.noResponse d)).2.2 =
      .apiError (mkWalrusAPIError (.num 500) (.str "REQUEST_FAILED") (.str d)
        (.arr []) ("Error retrieving blob as file by blob ID: " ++ bid)) ∧
    (get_blob_metadata c bid (.noResponse d)).2 =
      .apiError (mkWalrusAPIError (.num 500) (.str "REQUEST_FAILED") (.str d)
        (.arr []) ("Error retrieving metadata for blob ID: " ++ bid)) := by
  refine ⟨rfl, ?_, ?_, rfl, rfl, rfl, rfl, rfl⟩
  · simp only [put_blob_from_file, hfs]
    rfl
  · simp only [put_blob_from_stream, hread, if_true]
    rfl

/-- Claim C3 witness: a timed-out `get_blob` call on a concrete client. -/
theorem network_failure_request_failed_witness :
    (get_blob (WalrusClient.init "http://pub" "http://agg" 30) "b1"
        (.noResponse "connection timed out")).2 =
      .apiError (mkWalrusAPIError (.num 500) (.str "REQUEST_FAILED")
        (.str "connection timed out") (.arr [])
        "Error retrieving blob by blob ID: b1") :=
  (network_failure_request_failed (WalrusClient.init "http://pub" "http://agg" 30)
      "connection timed out" [7] none none none none
      (fun p => if p = "f.bin" then some [7] else none) "f.bin" "o1" "b1" "out.bin"
      ⟨true, [7]⟩ (by decide) rfl).2.2.2.2.1

/-- Claim C4 counterexample: a received 404 response whose body is JSON
without the expected shape — the mapping `(error ↦ [true])` — does not yield
the claimed fallback `ServiceError` (code 404, status `"Not Found"`,
message `"HTTP 404: Not Found"`, empty details); an `AttributeError` escapes
instead. -/
theorem error_value_nonmapping_not_fallback :
    handle_request_error ⟨some errorValueArray, ""⟩ "ctx" = .attributeError ∧
    handle_request_error ⟨some errorValueArray, ""⟩ "ctx" ≠
      .api (mkWalrusAPIError (.num 404) (.str "Not Found")
        (.str "HTTP 404: Not Found") (.arr []) "ctx") :=
  ⟨rfl, fun h => Raised.noConfusion h⟩

/-- Claim C4 (amended): for every failed exchange with a response whose body
is empty, not valid JSON, a parsed non-mapping, or a parsed mapping without an
`"error"` key, the raised `WalrusAPIError` has `code` = the HTTP status code,
`status` = the reason phrase (`"UNKNOWN"` when it is absent or empty),
`message` = `"HTTP <code>: <status>"`, and empty `details`.  (A parsed mapping
whose `"error"` value is not itself a mapping instead leaks an
`AttributeError`; see the counterexample.) -/
theorem handle_request_error_fallback (r : HttpResponse) (d ctx : String)
    (h : usesFallback r.body) :
    handle_request_error ⟨some r, d⟩ ctx =
      .api (mkWalrusAPIError (.num r.status_code) (.str (reasonOrUnknown r.reason))
        (.str ("HTTP " ++ toString r.status_code ++ ": " ++ reasonOrUnknown r.reason))
        (.arr []) ctx) := by
  obtain ⟨sc, reason, hdrs, body⟩ := r
  cases body with
  | unparsable raw => simp [handle_request_error, fallbackError]
  | parsed raw v =>
    by_cases hraw : raw = []
    · simp [handle_request_error, hraw, fallbackError]
    · cases v with
      | obj kvs =>
        have herr : pyDictGet kvs "error" = none := by
          simp [usesFallback] at h
          tauto
        simp [handle_request_error, hraw, herr, fallbackError]
      | null => simp [handle_request_error, hraw, fallbackError]
      | bool b => simp [handle_request_error, hraw, fallbackError]
      | num n => simp [handle_request_error, hraw, fallbackError]
      | str s => simp [handle_request_error, hraw, fallbackError]
      | arr xs => simp [handle_request_error, hraw, fallbackError]

/-- Claim C4 witness: a 502 response with an unparsable body and no reason
phrase falls back to `HTTP 502: UNKNOWN`. -/
theorem handle_request_error_fallback_witness :
    handle_request_error ⟨some ⟨502, none, [], .unparsable [60]⟩, ""⟩ "ctx" =
      .api (mkWalrusAPIError (.num 502) (.str "UNKNOWN")
        (.str "HTTP 502: UNKNOWN") (.arr []) "ctx") :=
  handle_request_error_fallback ⟨502, none, [], .unparsable [60]⟩ "" "ctx" trivial

/-- Key lookup for the `encoding_type` parameter. -/
theorem buildQueryParams_encoding (et : Option String) (ep : Option Int)
    (dl : Option Bool) (st : Option String) :
    pyDictGet (build_query_params et ep dl st) "encoding_type" = et := by
  rcases et with _ | e <;> rcases ep with _ | n <;> rcases dl with _ | b <;>
    rcases st with _ | s <;> simp [build_query_params, pyDictGet]

/-- Key lookup for the `epochs` parameter. -/
theorem buildQueryParams_epochs (et : Option String) (ep : Option Int)
    (dl : Option Bool) (st : Option String) :
    pyDictGet (build_query_params et ep dl st) "epochs" = ep.map toString := by
  rcases et with _ | e <;> rcases ep with _ | n <;> rcases dl with _ | b <;>
    rcases st with _ | s <;> simp [build_query_params, pyDictGet]

/-- Key lookup for the `deletable` parameter. -/
theorem buildQueryParams_deletable (et : Option String) (ep : Option Int)
    (dl : Option Bool) (st : Option String) :
    pyDictGet (build_query_params et ep dl st) "deletable" =
      dl.map (fun b => if b then "true" else "false") := by
  rcases et with _ | e <;> rcases ep with _ | n <;> rcases dl with _ | b <;>
    rcases st with _ | s <;> simp [build_query_params, pyDictGet]

/-- Key lookup for the `send_object_to` parameter. -/
theorem buildQueryParams_send (et : Option String) (ep : Option Int)
    (dl : Option Bool) (st : Option String) :
    pyDictGet (build_query_params et ep dl st) "send_object_to" = st := by
  rcases et with _ | e <;> rcases ep with _ | n <;> rcases dl with _ | b <;>
    rcases st with _ | s <;> simp [build_query_params, pyDictGet]

/-- Only the four documented keys can occur in the parameter mapping. -/
theorem buildQueryParams_keys (et : Option String) (ep : Option Int)
    (dl : Option Bool) (st : Option String) :
    ∀ k v, (k, v) ∈ build_query_params et ep dl st →
      k = "encoding_type" ∨ k = "epochs" ∨ k = "deletable" ∨ k = "send_object_to" := by
  rcases et with _ | e <;> rcases ep with _ | n <;> rcases dl with _ | b <;>
    rcases st with _ | s <;> intro k v h <;> simp [build_query_params] at h <;> tauto

/-- Claim C5: the query-parameter builder is a pure function whose mapping has
a key exactly for each provided argument (no placeholders for unset ones);
`epochs` is stringified base-10, `deletable` becomes the literal `"true"` or
`"false"`, no other key occurs, and `deletable` unset versus explicitly
`False` yield different mappings. -/
theorem build_query_params_spec (et : Option String) (ep : Option Int)
    (dl : Option Bool) (st : Option String) :
    pyDictGet (build_query_params et ep dl st) "encoding_type" = et ∧
    pyDictGet (build_query_params et ep dl st) "epochs" = ep.map toString ∧
    pyDictGet (build_query_params et ep dl st) "deletable" =
      dl.map (fun b => if b then "true" else "false") ∧
    pyDictGet (build_query_params et ep dl st) "send_object_to" = st ∧
    (∀ k v, (k, v) ∈ build_query_params et ep dl st →
      k = "encoding_type" ∨ k = "epochs" ∨ k = "deletable" ∨ k = "send_object_to") ∧
    build_query_params et ep (some false) st ≠ build_query_params et ep none st := by
  refine ⟨buildQueryParams_encoding et ep dl st, buildQueryParams_epochs et ep dl st,
    buildQueryParams_deletable et ep dl st, buildQueryParams_send et ep dl st,
    buildQueryParams_keys et ep dl st, ?_⟩
  intro heq
  have h1 := buildQueryParams_deletable et ep (some false) st
  have h2 := buildQueryParams_deletable et ep none st
  rw [heq, h2] at h1
  simp at h1

/-- Claim C5 witness: concrete instances of the lookup clauses. -/
theorem build_query_params_spec_witness :
    pyDictGet (build_query_params (some "RS2") (some 5) (some false) none)
      "deletable" = some "false" ∧
    pyDictGet (build_query_params none none none none) "deletable" = none :=
  ⟨(build_query_params_spec (some "RS2") (some 5) (some false) none).2.2.1,
   (build_query_params_spec none none none none).2.2.1⟩

/-- Claim C6 counterexample: on a base URL ending in two slashes, the
constructor removes both (`rstrip("/")` removes every trailing slash), while
stripping "exactly once" would leave one. -/
theorem init_rstrip_counterexample :
    (WalrusClient.init "http://p//" "http://a" 30).publisher_base_url = "http://p" ∧
    stripTrailingSlashOnce "http://p//" = "http://p/" ∧
    ("http://p" : String) ≠ "http://p/" :=
  ⟨rfl, rfl, by decide⟩

/-- Claim C6 (amended): construction strips all (zero or more) trailing `/`
characters from each base URL, stores the results and the timeout unchanged,
and a client built from a URL ending in `/` equals the client built from the
URL without it.  The constructor is a total pure function: no network or
filesystem access and no failure. -/
theorem init_normalizes_urls (pub agg : String) (t : Int) :
    (WalrusClient.init pub agg t).publisher_base_url = pyRstripSlash pub ∧
    (WalrusClient.init pub agg t).aggregator_base_url = pyRstripSlash agg ∧
    (WalrusClient.init pub agg t).timeout = t ∧
    WalrusClient.init (pub ++ "/") (agg ++ "/") t = WalrusClient.init pub agg t := by
  have key : ∀ s : String, pyRstripSlash (s ++ "/") = pyRstripSlash s := by
    intro s
    show (⟨rstripSlashList (s ++ "/").data⟩ : String) = ⟨rstripSlashList s.data⟩
    have hd : (s ++ "/").data = s.data ++ ['/'] := rfl
    rw [hd]
    simp [rstripSlashList, List.dropWhile]
  refine ⟨rfl, rfl, rfl, ?_⟩
  simp [WalrusClient.init, key]

/-- Claim C7: `put_blob_from_file` raises `FileNotFoundError` before any
network call (no request issued) when the path is not an existing regular
file, and otherwise reads the whole file and delegates to `put_blob` with its
bytes; `put_blob_from_stream` raises `ValueError` before any network call
when the stream is not readable.  The precondition errors are distinct
constructors from `apiError`, so neither is wrapped into a
`WalrusAPIError`. -/
theorem upload_precondition_errors (c : WalrusClient) (fs : FileSystem)
    (path : String) (et : Option String) (ep : Option Int) (dl : Option Bool)
    (st : Option String) (t : Transport) (stream : ByteStream) :
    (fs path = none →
      put_blob_from_file c fs path et ep dl st t =
        ([], .fileNotFoundError ("File not found: " ++ path))) ∧
    (∀ data, fs path = some data →
      put_blob_from_file c fs path et ep dl st t =
        put_blob c data et ep dl st t) ∧
    (stream.readable = false →
      put_blob_from_stream c stream et ep dl st t =
        ([], .valueError "Provided stream is not readable")) := by
  refine ⟨?_, ?_, ?_⟩
  · intro h
    simp [put_blob_from_file, h]
  · intro data h
    simp [put_blob_from_file, h]
  · intro h
    simp [put_blob_from_stream, h]

/-- Claim C7 witness: a missing file and a non-readable stream on a concrete
client, with no request issued. -/
theorem upload_precondition_errors_witness :
    put_blob_from_file (WalrusClient.init "http://pub" "http://agg" 30)
        (fun _ => none) "missing.bin" none none none none (.noResponse "x") =
      ([], .fileNotFoundError "File not found: missing.bin") ∧
    put_blob_from_stream (WalrusClient.init "http://pub" "http://agg" 30)
        ⟨false, [1]⟩ none none none none (.noResponse "x") =
      ([], .valueError "Provided stream is not readable") :=
  ⟨(upload_precondition_errors (WalrusClient.init "http://pub" "http://agg" 30)
      (fun _ => none) "missing.bin" none none none none (.noResponse "x")
      ⟨false, [1]⟩).1 rfl,
   (upload_precondition_errors (WalrusClient.init "http://pub" "http://agg" 30)
      (fun _ => none) "missing.bin" none none none none (.noResponse "x")
      ⟨false, [1]⟩).2.2 rfl⟩

/-- Claim C8: every upload entry point issues exactly one
`PUT {publisher_base_url}/v1/blobs` request with the
`Content-Type: application/octet-stream` header, the blob bytes as body and
the query parameters built from the options; and on a 2xx response whose body
parses as JSON, each returns that JSON value unmodified. -/
theorem upload_wire_contract (c : WalrusClient) (data : List Nat)
    (et : Option String) (ep : Option Int) (dl : Option Bool) (st : Option String)
    (fs : FileSystem) (path : String) (stream : ByteStream) (t : Transport)
    (sc : Int) (reason : Option String) (hdrs : List (String × String))
    (raw : List Nat) (v : Json)
    (hfs : fs path = some data) (hread : stream.readable = true)
    (hsc : 200 ≤ sc ∧ sc < 300) :
    (put_blob c data et ep dl st t).1 =
      [⟨"PUT", c.publisher_base_url ++ "/v1/blobs",
        [("Content-Type", "application/octet-stream")],
        build_query_params et ep dl st, data⟩] ∧
    (put_blob_from_file c fs path et ep dl st t).1 =
      [⟨"PUT", c.publisher_base_url ++ "/v1/blobs",
        [("Content-Type", "application/octet-stream")],
        build_query_params et ep dl st, data⟩] ∧
    (put_blob_from_stream c stream et ep dl st t).1 =
      [⟨"PUT", c.publisher_base_url ++ "/v1/blobs",
        [("Content-Type", "application/octet-stream")],
        build_query_params et ep dl st, stream.data⟩] ∧
    (put_blob c data et ep dl st
        (.response ⟨sc, reason, hdrs, .parsed raw v⟩)).2 = .ok v ∧
    (put_blob_from_file c fs path et ep dl st
        (.response ⟨sc, reason, hdrs, .parsed raw v⟩)).2 = .ok v ∧
    (put_blob_from_stream c stream et ep dl st
        (.response ⟨sc, reason, hdrs, .parsed raw v⟩)).2 = .ok v := by
  have hErr : isErrorStatus sc = false := by
    simp only [isErrorStatus, decide_eq_false_iff_not]
    omega
  refine ⟨rfl, ?_, ?_, ?_, ?_, ?_⟩
  · simp [put_blob_from_file, hfs, put_blob, put_blob_request]
  · simp [put_blob_from_stream, hread, put_blob_request]
  · simp [put_blob, runJsonRequest, hErr]
  · simp [put_blob_from_file, hfs, put_blob, runJsonRequest, hErr]
  · simp [put_blob_from_stream, hread, runJsonRequest, hErr]

/-- Claim C8 witness: a concrete 200 upload round trip through all three
entry points. -/
theorem upload_wire_contract_witness :
    (put_blob (WalrusClient.init "http://pub" "http://agg" 30) [1, 2] none none
        (some true) none
        (.response ⟨200, some "OK", [], .parsed [1] (.obj [("ok", .bool true)])⟩)).2 =
      .ok (.obj [("ok", .bool true)]) :=
  (upload_wire_contract (WalrusClient.init "http://pub" "http://agg" 30) [1, 2]
      none none (some true) none (fun _ => some [1, 2]) "f.bin" ⟨true, [1, 2]⟩
      (.noResponse "x") 200 (some "OK") [] [1] (.obj [("ok", .bool true)])
      rfl rfl (by decide)).2.2.2.1

/-- Claim C9: the message carried by every `WalrusAPIError` (the string its
constructor passes to `Exception.__init__`) is the caller-supplied context
string, prefixed ahead of the `code`/`status`/`message`/`details` summary
that `__str__` renders. -/
theorem error_rendering_prefixes_context (ctx : String)
    (code status message details : Json) (h : ctx ≠ "") :
    (mkWalrusAPIError code status message details ctx).args0 =
      ctx ++ ": " ++ (mkWalrusAPIError code status message details ctx).toStr := by
  apply String.ext
  simp only [mkWalrusAPIError, errorMsg, WalrusAPIError.toStr, String.data_append,
    List.append_assoc,
    show (": HTTP " : String).data = (": " : String).data ++ ("HTTP " : String).data
      from rfl,
    List.cons_append, List.nil_append]

/-- Claim C9 witness: the carried rendering of a concrete error. -/
theorem error_rendering_prefixes_context_witness :
    (mkWalrusAPIError (.num 404) (.str "NOT_FOUND") (.str "no such blob")
        (.arr []) "Error retrieving blob by blob ID: b1").args0 =
      "Error retrieving blob by blob ID: b1" ++ ": " ++
        (mkWalrusAPIError (.num 404) (.str "NOT_FOUND") (.str "no such blob")
          (.arr []) "Error retrieving blob by blob ID: b1").toStr :=
  error_rendering_prefixes_context "Error retrieving blob by blob ID: b1"
    (.num 404) (.str "NOT_FOUND") (.str "no such blob") (.arr []) (by decide)

/-- Claim C10 counterexample: a 304 Not Modified response is not 2xx, yet
`raise_for_status` passes (it only raises for 400-599), so `get_blob_as_file`
opens — creates or truncates — the destination file. -/
theorem get_blob_as_file_writes_on_304 :
    (get_blob_as_file (WalrusClient.init "http://pub" "http://agg" 30) "b1"
        "out.bin" (.response notModifiedResponse)).2.1 = FileEffect.written [] ∧
    (get_blob_as_file (WalrusClient.init "http://pub" "http://agg" 30) "b1"
        "out.bin" (.response notModifiedResponse)).2.1 ≠ FileEffect.untouched :=
  ⟨rfl, fun h => FileEffect.noConfusion h⟩

/-- Claim C10 (amended): `get_blob_as_file` opens the destination file only
after a response with a status outside 400-599 has been received; if the
request fails before a response, or the response status is in 400-599, the
file is neither created nor modified; otherwise the file receives exactly the
response body. -/
theorem get_blob_as_file_effect (c : WalrusClient) (bid fpath : String)
    (t : Transport) :
    (∀ d, t = .noResponse d →
      (get_blob_as_file c bid fpath t).2.1 = .untouched) ∧
    (∀ r, t = .response r → isErrorStatus r.status_code = true →
      (get_blob_as_file c bid fpath t).2.1 = .untouched) ∧
    (∀ r, t = .response r → isErrorStatus r.status_code = false →
      (get_blob_as_file c bid fpath t).2.1 = .written r.body.content) := by
  refine ⟨?_, ?_, ?_⟩
  · intro d ht
    subst ht
    rfl
  · intro r ht hsc
    subst ht
    simp [get_blob_as_file, hsc]
  · intro r ht hsc
    subst ht
    simp [get_blob_as_file, hsc]

/-- Claim C10 witness: a 404 download leaves the destination untouched. -/
theorem get_blob_as_file_effect_witness :
    (get_blob_as_file (WalrusClient.init "http://pub" "http://agg" 30) "b1"
        "out.bin" (.response ⟨404, some "Not Found", [], .unparsable [1]⟩)).2.1 =
      FileEffect.untouched :=
  (get_blob_as_file_effect (WalrusClient.init "http://pub" "http://agg" 30) "b1"
      "out.bin" (.response ⟨404, some "Not Found", [], .unparsable [1]⟩)).2.1
    ⟨404, some "Not Found", [], .unparsable [1]⟩ rfl (by decide)

end Walrus
